import Mathlib

/-!
Verification of the map tile downloader (`tile_downloader.py`).

The development shallowly embeds the two core components of the program:

* the geo-to-tile mapper `lat_lon_to_tile` (floats are modelled as real
  numbers; Python's `int(...)` conversion, which truncates toward zero, is
  modelled by `pyInt`);
* the area fetcher `download_area` (`TILE_SOURCES`, `download_tile`, the
  task enumeration loop, the large-job confirmation gate and the outcome
  aggregation loop).

Filesystem state is a record of created directories and written files;
side effects (directory creation, sleeps, HTTP GETs, file writes) are
collected in a trace list.  The thread pool completes tasks in an
arbitrary order; since the aggregation counters commute, the batch is
modelled by processing the submitted task list sequentially.
-/

open Real

namespace Tile

/-! ### Geo-to-tile mapper, `TileDownloader.lat_lon_to_tile` -/

/-- Python's `int(...)` conversion on a real value: truncation toward zero. -/
noncomputable def pyInt (r : ℝ) : ℤ :=
  if 0 ≤ r then ⌊r⌋ else ⌈r⌉

/-- Model of `TileDownloader.lat_lon_to_tile`:
`lat_rad = math.radians(lat)`, `n = 2.0 ** zoom`,
`x = int((lon + 180.0) / 360.0 * n)`,
`y = int((1.0 - math.asinh(math.tan(lat_rad)) / math.pi) / 2.0 * n)`. -/
noncomputable def lat_lon_to_tile (lat lon : ℝ) (zoom : ℤ) : ℤ × ℤ :=
  let lat_rad := lat * π / 180
  let n : ℝ := (2 : ℝ) ^ zoom
  let x := pyInt ((lon + 180) / 360 * n)
  let y := pyInt ((1 - Real.arsinh (Real.tan lat_rad) / π) / 2 * n)
  (x, y)

/-- Modelled from the spec: the mapper contract written with `floor`
(`x = floor((lon + 180) / 360 * n)`,
`y = floor((1 - asinh(tan(lat_in_radians)) / pi) / 2 * n)`), to be compared
with the code's `lat_lon_to_tile`, which uses `int(...)` truncation. -/
noncomputable def toTile_spec (lat lon : ℝ) (zoom : ℤ) : ℤ × ℤ :=
  let lat_rad := lat * π / 180
  let n : ℝ := (2 : ℝ) ^ zoom
  (⌊(lon + 180) / 360 * n⌋, ⌊(1 - Real.arsinh (Real.tan lat_rad) / π) / 2 * n⌋)

/-! ### Data model of the fetcher -/

/-- One element of the `tasks` list built by `download_area`:
the tuple `(source_type, zoom, x, y, delay)`. -/
structure FetchTask where
  source : String
  z : ℤ
  x : ℤ
  y : ℤ
  delay : ℝ

/-- Side effects performed by a worker, in program order. -/
inductive Effect where
  | mkdirP (dir : List String)
  | sleep (d : ℝ)
  | httpGet (url : String)
  | writeFile (path : List String) (content : String)

/-- Filesystem state: the set of created directories and the written files
(an association list from path to content; later writes shadow earlier
ones).  Paths are component lists rooted at the working directory. -/
structure FS where
  dirs : List (List String)
  files : List (List String × String)

/-- The three aggregation counters of `download_area`. -/
structure Summary where
  downloaded : ℕ
  skipped : ℕ
  failed : ℕ
deriving DecidableEq

/-- The `TILE_SOURCES` table.  Each entry is the URL template with `z`, `x`,
`y` substituted, exactly as `self.TILE_SOURCES[source_type].format(z=z, x=x, y=y)`
produces it; an unknown key yields `none` (a `KeyError` in Python):

* `terrain   : https://tile.opentopomap.org/{z}/{x}/{y}.png`
* `satellite : https://server.arcgisonline.com/ArcGIS/rest/services/World_Imagery/MapServer/tile/{z}/{y}/{x}`
* `osm       : https://tile.openstreetmap.org/{z}/{x}/{y}.png` -/
def TILE_SOURCES (source_type : String) : Option (ℤ → ℤ → ℤ → String) :=
  if source_type = "terrain" then
    some (fun z x y =>
      "https://tile.opentopomap.org/" ++ toString z ++ "/" ++ toString x ++
        "/" ++ toString y ++ ".png")
  else if source_type = "satellite" then
    some (fun z x y =>
      "https://server.arcgisonline.com/ArcGIS/rest/services/World_Imagery/MapServer/tile/" ++
        toString z ++ "/" ++ toString y ++ "/" ++ toString x)
  else if source_type = "osm" then
    some (fun z x y =>
      "https://tile.openstreetmap.org/" ++ toString z ++ "/" ++ toString x ++
        "/" ++ toString y ++ ".png")
  else
    none

/-- `ext = '.jpg' if source_type == 'satellite' else '.png'`. -/
def tileExt (source_type : String) : String :=
  if source_type = "satellite" then ".jpg" else ".png"

/-- `tile_dir = self.output_dir / source_type / str(z) / str(x)`. -/
def tileDir (out source_type : String) (z x : ℤ) : List String :=
  [out, source_type, toString z, toString x]

/-- `tile_path = tile_dir / f"{y}{ext}"`. -/
def tilePath (out source_type : String) (z x y : ℤ) : List String :=
  tileDir out source_type z x ++ [toString y ++ tileExt source_type]

/-- `tile_path.exists()`. -/
def hasFile (fs : FS) (p : List String) : Bool :=
  fs.files.any (fun q => q.1 == p)

/-- Create a single directory if absent (`exist_ok=True`). -/
def addDir (fs : FS) (d : List String) : FS :=
  if d ∈ fs.dirs then fs else { fs with dirs := d :: fs.dirs }

/-- `tile_dir.mkdir(parents=True, exist_ok=True)`: create the directory and
all its ancestors (the empty prefix stands for the working directory, which
already exists). -/
def mkdirParents (fs : FS) (d : List String) : FS :=
  d.inits.foldl addDir fs

/-- `open(tile_path, 'wb').write(...)`: record the file's content. -/
def writeFileFS (fs : FS) (p : List String) (content : String) : FS :=
  { fs with files := (p, content) :: fs.files }

/-- Message `f"Пропущен (уже существует): {source_type}/{z}/{x}/{y}"`. -/
def skipMsg (source_type : String) (z x y : ℤ) : String :=
  "Пропущен (уже существует): " ++ source_type ++ "/" ++ toString z ++ "/" ++
    toString x ++ "/" ++ toString y

/-- Message `f"Загружен: {source_type}/{z}/{x}/{y}"`. -/
def loadedMsg (source_type : String) (z x y : ℤ) : String :=
  "Загружен: " ++ source_type ++ "/" ++ toString z ++ "/" ++ toString x ++
    "/" ++ toString y

/-- Message `f"Ошибка при загрузке {source_type}/{z}/{x}/{y}: {e}"`. -/
def errorMsg (source_type : String) (z x y : ℤ) (e : String) : String :=
  "Ошибка при загрузке " ++ source_type ++ "/" ++ toString z ++ "/" ++
    toString x ++ "/" ++ toString y ++ ": " ++ e

/-- Python's substring test `pat in s`. -/
def pyInStr (pat s : String) : Bool :=
  decide (pat.data <:+: s.data)

/-- Model of `TileDownloader.download_tile`.  The network is an oracle
mapping a URL to either the response body or a `requests.RequestException`
reason (timeout, connection failure, or the non-2xx status raised by
`raise_for_status`).  Returns the final filesystem, the effect trace, and
either the `(success, message)` pair or an uncaught Python exception
(`KeyError` from the `TILE_SOURCES` lookup). -/
def download_tile (out : String) (net : String → Except String String)
    (fs : FS) (source_type : String) (z x y : ℤ) (delay : ℝ) :
    FS × List Effect × Except String (Bool × String) :=
  let tile_dir := tileDir out source_type z x
  let fs1 := mkdirParents fs tile_dir
  let tile_path := tilePath out source_type z x y
  if hasFile fs1 tile_path then
    (fs1, [Effect.mkdirP tile_dir], Except.ok (true, skipMsg source_type z x y))
  else
    match TILE_SOURCES source_type with
    | none => (fs1, [Effect.mkdirP tile_dir], Except.error "KeyError")
    | some tmpl =>
      let url := tmpl z x y
      match net url with
      | Except.error e =>
        (fs1, [Effect.mkdirP tile_dir, Effect.sleep delay, Effect.httpGet url],
          Except.ok (false, errorMsg source_type z x y e))
      | Except.ok content =>
        (writeFileFS fs1 tile_path content,
          [Effect.mkdirP tile_dir, Effect.sleep delay, Effect.httpGet url,
            Effect.writeFile tile_path content],
          Except.ok (true, loadedMsg source_type z x y))

/-- The completion classification of `download_area`:
`if success: (skipped if "Пропущен" in message else downloaded) else failed`. -/
def addOutcome (success : Bool) (message : String) (s : Summary) : Summary :=
  if success then
    if pyInStr "Пропущен" message then { s with skipped := s.skipped + 1 }
    else { s with downloaded := s.downloaded + 1 }
  else { s with failed := s.failed + 1 }

/-- The aggregation loop of `download_area`: every task is submitted to the
executor up front, so every task runs and its side effects happen; the
loop reads each completion, classifies it, and accumulates the three
counters.  An uncaught worker exception is re-raised by `future.result()`
and propagates out of the loop — no summary is produced — but the
already-submitted remaining tasks are still executed by the pool during
`ThreadPoolExecutor` shutdown (`with ... as executor` waits for them), so
their filesystem mutations and effects occur all the same. -/
def processTasks (out : String) (net : String → Except String String) :
    FS → List FetchTask → FS × List Effect × Except String Summary
  | fs, [] => (fs, [], Except.ok ⟨0, 0, 0⟩)
  | fs, t :: rest =>
    match download_tile out net fs t.source t.z t.x t.y t.delay with
    | (fs1, effs1, Except.error e) =>
      let r2 := processTasks out net fs1 rest
      (r2.1, effs1 ++ r2.2.1, Except.error e)
    | (fs1, effs1, Except.ok bm) =>
      let r2 := processTasks out net fs1 rest
      (r2.1, effs1 ++ r2.2.1, Except.map (addOutcome bm.1 bm.2) r2.2.2)

/-- Python's `range(a, b + 1)`, i.e. the integers from `a` to `b` inclusive. -/
def intRange (a b : ℤ) : List ℤ :=
  (List.range (b + 1 - a).toNat).map (fun i : ℕ => a + (i : ℤ))

/-- The task-enumeration loop of `download_area`:
for each zoom in `range(zoom_min, zoom_max + 1)`,
`(x_min, y_max) = lat_lon_to_tile(lat_min, lon_min, zoom)` and
`(x_max, y_min) = lat_lon_to_tile(lat_max, lon_max, zoom)`, then one task
per `(x, y)` in `range(x_min, x_max + 1) × range(y_min, y_max + 1)`. -/
noncomputable def enumerate_tasks (lat_min lon_min lat_max lon_max : ℝ)
    (zoom_min zoom_max : ℤ) (source_type : String) (delay : ℝ) :
    List FetchTask :=
  (intRange zoom_min zoom_max).flatMap (fun zoom =>
    let c_sw := lat_lon_to_tile lat_min lon_min zoom
    let c_ne := lat_lon_to_tile lat_max lon_max zoom
    (intRange c_sw.1 c_ne.1).flatMap (fun x =>
      (intRange c_ne.2 c_sw.2).map (fun y =>
        ⟨source_type, zoom, x, y, delay⟩)))

/-- Python's `str.lower()` restricted to the alphabets the confirmation
test uses (ASCII and the Russian alphabet). -/
def pyLowerChar (c : Char) : Char :=
  if 'A' ≤ c ∧ c ≤ 'Z' then Char.ofNat (c.toNat + 32)
  else if 'А' ≤ c ∧ c ≤ 'Я' then Char.ofNat (c.toNat + 32)
  else if c = 'Ё' then 'ё'
  else c

/-- Python's `response.lower()` on the confirmation answer (`str.map`,
written on the character list so that it evaluates by `decide`). -/
def pyLower (s : String) : String :=
  ⟨s.data.map pyLowerChar⟩

/-- The accepted confirmation answers `['yes', 'y', 'да', 'д']`. -/
def confirmWords : List String :=
  ["yes", "y", "да", "д"]

/-- The body of `download_area` after enumeration: if more than 1000 tasks
were enumerated and the (injected) confirmation answer is declined, return
with nothing done (`none`); otherwise run the aggregation loop. -/
def download_area_run (out : String) (net : String → Except String String)
    (answer : String) (fs : FS) (tasks : List FetchTask) :
    FS × List Effect × Except String (Option Summary) :=
  if 1000 < tasks.length ∧ ¬ pyLower answer ∈ confirmWords then
    (fs, [], Except.ok none)
  else
    ((processTasks out net fs tasks).1, (processTasks out net fs tasks).2.1,
      Except.map some (processTasks out net fs tasks).2.2)

/-- Model of `TileDownloader.download_area`: enumerate the covering tasks
for the bounding box and zoom range, then run the gated aggregation loop. -/
noncomputable def download_area (out : String)
    (net : String → Except String String) (answer : String) (fs : FS)
    (lat_min lon_min lat_max lon_max : ℝ) (zoom_min zoom_max : ℤ)
    (source_type : String) (delay : ℝ) :
    FS × List Effect × Except String (Option Summary) :=
  download_area_run out net answer fs
    (enumerate_tasks lat_min lon_min lat_max lon_max zoom_min zoom_max
      source_type delay)

end Tile

namespace Tile

/-! ### Helper lemmas about the filesystem model -/

lemma addDir_files (fs : FS) (d : List String) : (addDir fs d).files = fs.files := by
  unfold addDir
  split <;> rfl

lemma foldl_addDir_files (l : List (List String)) (fs : FS) :
    (l.foldl addDir fs).files = fs.files := by
  induction l generalizing fs with
  | nil => rfl
  | cons a t ih => rw [List.foldl_cons, ih, addDir_files]

lemma mkdirParents_files (fs : FS) (d : List String) :
    (mkdirParents fs d).files = fs.files :=
  foldl_addDir_files _ _

lemma hasFile_mkdirParents (fs : FS) (d p : List String) :
    hasFile (mkdirParents fs d) p = hasFile fs p := by
  unfold hasFile
  rw [mkdirParents_files]

lemma mem_dirs_addDir_self (fs : FS) (d : List String) : d ∈ (addDir fs d).dirs := by
  unfold addDir
  split
  · assumption
  · exact List.mem_cons_self _ _

lemma mem_dirs_addDir_of_mem (fs : FS) (d p : List String) (h : p ∈ fs.dirs) :
    p ∈ (addDir fs d).dirs := by
  unfold addDir
  split
  · exact h
  · exact List.mem_cons_of_mem _ h

lemma mem_dirs_foldl_of_mem_dirs (l : List (List String)) (fs : FS) (p : List String)
    (h : p ∈ fs.dirs) : p ∈ (l.foldl addDir fs).dirs := by
  induction l generalizing fs with
  | nil => exact h
  | cons a t ih => exact ih _ (mem_dirs_addDir_of_mem _ _ _ h)

lemma mem_dirs_foldl_of_mem (l : List (List String)) (fs : FS) (p : List String)
    (h : p ∈ l) : p ∈ (l.foldl addDir fs).dirs := by
  induction l generalizing fs with
  | nil => cases h
  | cons a t ih =>
    rw [List.foldl_cons]
    rcases List.mem_cons.mp h with rfl | h'
    · exact mem_dirs_foldl_of_mem_dirs _ _ _ (mem_dirs_addDir_self _ _)
    · exact ih _ h'

lemma mem_dirs_mkdirParents (fs : FS) (d : List String) : d ∈ (mkdirParents fs d).dirs :=
  mem_dirs_foldl_of_mem _ _ _ ((List.mem_inits d d).2 ⟨[], by simp⟩)

/-! ### Helper lemmas about message classification -/

lemma infix_helper {l r pre : List Char} (h : l ++ r = pre) (rest : List Char) :
    l <:+: pre ++ rest :=
  ⟨[], r ++ rest, by subst h; simp⟩

lemma pyInStr_skipMsg (s : String) (z x y : ℤ) :
    pyInStr "Пропущен" (skipMsg s z x y) = true := by
  unfold pyInStr skipMsg
  rw [decide_eq_true_iff]
  have hsplit : ("Пропущен" : String).data ++ (" (уже существует): " : String).data =
      ("Пропущен (уже существует): " : String).data := by decide
  simp only [String.data_append, List.append_assoc]
  exact infix_helper hsplit _

lemma addOutcome_skipMsg (s : String) (z x y : ℤ) (c : Summary) :
    addOutcome true (skipMsg s z x y) c = { c with skipped := c.skipped + 1 } := by
  unfold addOutcome
  rw [pyInStr_skipMsg]
  simp

lemma addOutcome_failed (m : String) (c : Summary) :
    addOutcome false m c = { c with failed := c.failed + 1 } := by
  simp [addOutcome]

lemma sum_addOutcome (b : Bool) (m : String) (c : Summary) :
    (addOutcome b m c).downloaded + (addOutcome b m c).skipped + (addOutcome b m c).failed =
      c.downloaded + c.skipped + c.failed + 1 := by
  unfold addOutcome
  cases b
  · simp
    omega
  · by_cases h : pyInStr "Пропущен" m = true <;> simp [h] <;> omega

/-! ### Branch lemmas for `download_tile` and `processTasks` -/

lemma download_tile_skip (out : String) (net : String → Except String String)
    (fs : FS) (s : String) (z x y : ℤ) (d : ℝ)
    (h : hasFile fs (tilePath out s z x y) = true) :
    download_tile out net fs s z x y d =
      (mkdirParents fs (tileDir out s z x), [Effect.mkdirP (tileDir out s z x)],
        Except.ok (true, skipMsg s z x y)) := by
  simp [download_tile, hasFile_mkdirParents, h]

lemma download_tile_keyError (out : String) (net : String → Except String String)
    (fs : FS) (s : String) (z x y : ℤ) (d : ℝ)
    (hsrc : TILE_SOURCES s = none)
    (h : hasFile fs (tilePath out s z x y) = false) :
    download_tile out net fs s z x y d =
      (mkdirParents fs (tileDir out s z x), [Effect.mkdirP (tileDir out s z x)],
        Except.error "KeyError") := by
  simp [download_tile, hasFile_mkdirParents, h, hsrc]

lemma download_tile_netError (out : String) (net : String → Except String String)
    (fs : FS) (s : String) (z x y : ℤ) (d : ℝ) (tmpl : ℤ → ℤ → ℤ → String) (e : String)
    (hsrc : TILE_SOURCES s = some tmpl)
    (h : hasFile fs (tilePath out s z x y) = false)
    (hnet : net (tmpl z x y) = Except.error e) :
    download_tile out net fs s z x y d =
      (mkdirParents fs (tileDir out s z x),
        [Effect.mkdirP (tileDir out s z x), Effect.sleep d, Effect.httpGet (tmpl z x y)],
        Except.ok (false, errorMsg s z x y e)) := by
  simp [download_tile, hasFile_mkdirParents, h, hsrc, hnet]

lemma download_tile_success (out : String) (net : String → Except String String)
    (fs : FS) (s : String) (z x y : ℤ) (d : ℝ) (tmpl : ℤ → ℤ → ℤ → String)
    (content : String)
    (hsrc : TILE_SOURCES s = some tmpl)
    (h : hasFile fs (tilePath out s z x y) = false)
    (hnet : net (tmpl z x y) = Except.ok content) :
    download_tile out net fs s z x y d =
      (writeFileFS (mkdirParents fs (tileDir out s z x)) (tilePath out s z x y) content,
        [Effect.mkdirP (tileDir out s z x), Effect.sleep d, Effect.httpGet (tmpl z x y),
          Effect.writeFile (tilePath out s z x y) content],
        Except.ok (true, loadedMsg s z x y)) := by
  simp [download_tile, hasFile_mkdirParents, h, hsrc, hnet]

lemma download_tile_ok_of_valid (out : String) (net : String → Except String String)
    (fs : FS) (s : String) (z x y : ℤ) (d : ℝ)
    (hsome : (TILE_SOURCES s).isSome) :
    ∃ fs1 effs1 b m, download_tile out net fs s z x y d = (fs1, effs1, Except.ok (b, m)) := by
  cases hhf : hasFile fs (tilePath out s z x y) with
  | true => exact ⟨_, _, _, _, download_tile_skip out net fs s z x y d hhf⟩
  | false =>
    obtain ⟨tmpl, hsrc⟩ := Option.isSome_iff_exists.mp hsome
    cases hnet : net (tmpl z x y) with
    | error e => exact ⟨_, _, _, _, download_tile_netError out net fs s z x y d tmpl e hsrc hhf hnet⟩
    | ok content => exact ⟨_, _, _, _, download_tile_success out net fs s z x y d tmpl content hsrc hhf hnet⟩

lemma processTasks_cons_ok (out : String) (net : String → Except String String)
    (fs fs1 : FS) (t : FetchTask) (rest : List FetchTask)
    (effs1 : List Effect) (b : Bool) (m : String)
    (hdt : download_tile out net fs t.source t.z t.x t.y t.delay = (fs1, effs1, Except.ok (b, m))) :
    processTasks out net fs (t :: rest) =
      ((processTasks out net fs1 rest).1,
        effs1 ++ (processTasks out net fs1 rest).2.1,
        Except.map (addOutcome b m) (processTasks out net fs1 rest).2.2) := by
  simp [processTasks, hdt]

lemma processTasks_cons_error (out : String) (net : String → Except String String)
    (fs fs1 : FS) (t : FetchTask) (rest : List FetchTask)
    (effs1 : List Effect) (e : String)
    (hdt : download_tile out net fs t.source t.z t.x t.y t.delay = (fs1, effs1, Except.error e)) :
    processTasks out net fs (t :: rest) =
      ((processTasks out net fs1 rest).1,
        effs1 ++ (processTasks out net fs1 rest).2.1,
        Except.error e) := by
  simp [processTasks, hdt]

end Tile

namespace Tile

/-! ### Claim theorems -/

/-- C10: every call to `download_tile` creates the tile directory
`{outputDirectory}/{source}/{z}/{x}` (with `mkdir(parents=True, exist_ok=True)`)
before the file-existence check — the first effect of every trace is that
mkdir — so the directory is present in the resulting filesystem whatever the
outcome: skipped, failed, downloaded, or the KeyError of an unknown source. -/
theorem claim10_mkdir (out : String) (net : String → Except String String)
    (fs : FS) (s : String) (z x y : ℤ) (d : ℝ) :
    tileDir out s z x ∈ (download_tile out net fs s z x y d).1.dirs ∧
    (download_tile out net fs s z x y d).2.1.head? =
      some (Effect.mkdirP (tileDir out s z x)) := by
  cases hhf : hasFile fs (tilePath out s z x y) with
  | true =>
    rw [download_tile_skip out net fs s z x y d hhf]
    exact ⟨mem_dirs_mkdirParents _ _, rfl⟩
  | false =>
    cases hsrc : TILE_SOURCES s with
    | none =>
      rw [download_tile_keyError out net fs s z x y d hsrc hhf]
      exact ⟨mem_dirs_mkdirParents _ _, rfl⟩
    | some tmpl =>
      cases hnet : net (tmpl z x y) with
      | error e =>
        rw [download_tile_netError out net fs s z x y d tmpl e hsrc hhf hnet]
        exact ⟨mem_dirs_mkdirParents _ _, rfl⟩
      | ok content =>
        rw [download_tile_success out net fs s z x y d tmpl content hsrc hhf hnet]
        exact ⟨mem_dirs_mkdirParents _ _, rfl⟩

/-- C9: the satellite source substitutes `y` before `x` in the URL path —
at `z=5, x=3, y=2` it yields `.../tile/5/2/3` — while terrain and osm use
`{z}/{x}/{y}` order, and the file extension is `.jpg` for satellite and
`.png` for the other sources of the fixed set. -/
theorem claim9_sources :
    (∃ f, TILE_SOURCES "satellite" = some f ∧
      (∀ z x y : ℤ, f z x y =
        "https://server.arcgisonline.com/ArcGIS/rest/services/World_Imagery/MapServer/tile/" ++
          toString z ++ "/" ++ toString y ++ "/" ++ toString x) ∧
      f 5 3 2 =
        "https://server.arcgisonline.com/ArcGIS/rest/services/World_Imagery/MapServer/tile/5/2/3") ∧
    (∃ f, TILE_SOURCES "terrain" = some f ∧ ∀ z x y : ℤ, f z x y =
      "https://tile.opentopomap.org/" ++ toString z ++ "/" ++ toString x ++ "/" ++
        toString y ++ ".png") ∧
    (∃ f, TILE_SOURCES "osm" = some f ∧ ∀ z x y : ℤ, f z x y =
      "https://tile.openstreetmap.org/" ++ toString z ++ "/" ++ toString x ++ "/" ++
        toString y ++ ".png") ∧
    tileExt "satellite" = ".jpg" ∧ tileExt "terrain" = ".png" ∧ tileExt "osm" = ".png" := by
  refine ⟨⟨_, rfl, fun z x y => rfl, by decide⟩,
    ⟨_, rfl, fun z x y => rfl⟩,
    ⟨_, rfl, fun z x y => rfl⟩, by decide, by decide, by decide⟩

/-- C6: if more than 1000 tasks were enumerated, `download_area` asks for
confirmation before starting any work; a declined answer returns at once
with the filesystem unchanged, an empty effect trace (so zero files written
and zero network calls) and no summary. -/
theorem claim6_confirmation_declined (out : String) (net : String → Except String String)
    (answer : String) (fs : FS) (tasks : List FetchTask)
    (hbig : 1000 < tasks.length) (hdecl : ¬ pyLower answer ∈ confirmWords) :
    download_area_run out net answer fs tasks = (fs, [], Except.ok none) := by
  unfold download_area_run
  rw [if_pos ⟨hbig, hdecl⟩]

/-- Witness for C6 at a concrete 1001-task batch and the answer `no`. -/
theorem claim6_witness :
    1000 < (List.replicate 1001 (⟨"osm", 0, 0, 0, 0.5⟩ : FetchTask)).length ∧
    ¬ pyLower "no" ∈ confirmWords ∧
    download_area_run "tiles" (fun _ => Except.error "refused") "no" ⟨[], []⟩
        (List.replicate 1001 (⟨"osm", 0, 0, 0, 0.5⟩ : FetchTask)) =
      (⟨[], []⟩, [], Except.ok none) :=
  ⟨by rw [List.length_replicate]; omega, by decide,
    claim6_confirmation_declined "tiles" (fun _ => Except.error "refused") "no" ⟨[], []⟩
      (List.replicate 1001 ⟨"osm", 0, 0, 0, 0.5⟩) (by rw [List.length_replicate]; omega) (by decide)⟩

/-- C1: if every task's destination file already exists, each worker
short-circuits to Skipped before sleeping or fetching: the whole run
performs no sleep and no HTTP GET (every trace entry is a mkdir), leaves
the stored files unchanged, and the final summary is
`downloaded = 0`, `skipped = total`, `failed = 0`. -/
theorem claim1_all_existing_skipped (out : String) (net : String → Except String String)
    (fs : FS) (tasks : List FetchTask)
    (hall : ∀ t ∈ tasks, hasFile fs (tilePath out t.source t.z t.x t.y) = true) :
    ∃ fs2 effs, processTasks out net fs tasks = (fs2, effs, Except.ok ⟨0, tasks.length, 0⟩) ∧
      fs2.files = fs.files ∧ ∀ e ∈ effs, ∃ dd, e = Effect.mkdirP dd := by
  induction tasks generalizing fs with
  | nil => exact ⟨fs, [], rfl, rfl, by simp⟩
  | cons t rest ih =>
    have hht : hasFile fs (tilePath out t.source t.z t.x t.y) = true :=
      hall t (List.mem_cons_self _ _)
    have hdt := download_tile_skip out net fs t.source t.z t.x t.y t.delay hht
    rw [processTasks_cons_ok out net fs _ t rest _ _ _ hdt]
    obtain ⟨fs2, effs, heq, hfiles, heffs⟩ :=
      ih (mkdirParents fs (tileDir out t.source t.z t.x))
        (fun t' ht' => by
          rw [hasFile_mkdirParents]
          exact hall t' (List.mem_cons_of_mem _ ht'))
    refine ⟨fs2, Effect.mkdirP (tileDir out t.source t.z t.x) :: effs, ?_, ?_, ?_⟩
    · rw [heq]
      simp [Except.map, addOutcome_skipMsg]
    · rw [hfiles, mkdirParents_files]
    · intro e he
      rcases List.mem_cons.mp he with rfl | he'
      · exact ⟨_, rfl⟩
      · exact heffs e he'

/-- Witness for C1: a one-task batch whose destination file exists. -/
theorem claim1_witness :
    (∀ t ∈ [(⟨"osm", 1, 2, 3, 0.1⟩ : FetchTask)],
      hasFile ⟨[], [(["tiles", "osm", "1", "2", "3.png"], "img")]⟩
        (tilePath "tiles" t.source t.z t.x t.y) = true) ∧
    ∃ fs2 effs,
      processTasks "tiles" (fun _ => Except.error "down")
          ⟨[], [(["tiles", "osm", "1", "2", "3.png"], "img")]⟩
          [(⟨"osm", 1, 2, 3, 0.1⟩ : FetchTask)] =
        (fs2, effs, Except.ok ⟨0, 1, 0⟩) ∧
      fs2.files = [(["tiles", "osm", "1", "2", "3.png"], "img")] ∧
      ∀ e ∈ effs, ∃ dd, e = Effect.mkdirP dd :=
  ⟨by decide,
    claim1_all_existing_skipped "tiles" (fun _ => Except.error "down")
      ⟨[], [(["tiles", "osm", "1", "2", "3.png"], "img")]⟩
      [⟨"osm", 1, 2, 3, 0.1⟩] (by decide)⟩

end Tile

namespace Tile

/-- C4: a task whose HTTP fetch fails (the network oracle returns a
`RequestException`: timeout, connection failure or non-success status) is
recorded as a failure: `download_tile` returns `success = false` with
exactly one HTTP GET in its trace (no retry), no file is written at the
tile's destination (the stored files are unchanged), and the batch
continues with the remaining tasks, counting the task in `failed`. -/
theorem claim4_fetch_failure (out : String) (net : String → Except String String)
    (fs : FS) (t : FetchTask) (tmpl : ℤ → ℤ → ℤ → String) (err : String)
    (hnf : hasFile fs (tilePath out t.source t.z t.x t.y) = false)
    (hsrc : TILE_SOURCES t.source = some tmpl)
    (hnet : net (tmpl t.z t.x t.y) = Except.error err) :
    download_tile out net fs t.source t.z t.x t.y t.delay =
      (mkdirParents fs (tileDir out t.source t.z t.x),
        [Effect.mkdirP (tileDir out t.source t.z t.x), Effect.sleep t.delay,
          Effect.httpGet (tmpl t.z t.x t.y)],
        Except.ok (false, errorMsg t.source t.z t.x t.y err)) ∧
    (mkdirParents fs (tileDir out t.source t.z t.x)).files = fs.files ∧
    ∀ rest, processTasks out net fs (t :: rest) =
      ((processTasks out net (mkdirParents fs (tileDir out t.source t.z t.x)) rest).1,
        Effect.mkdirP (tileDir out t.source t.z t.x) :: Effect.sleep t.delay ::
          Effect.httpGet (tmpl t.z t.x t.y) ::
          (processTasks out net (mkdirParents fs (tileDir out t.source t.z t.x)) rest).2.1,
        Except.map (fun c => { c with failed := c.failed + 1 })
          (processTasks out net (mkdirParents fs (tileDir out t.source t.z t.x)) rest).2.2) := by
  have hdt := download_tile_netError out net fs t.source t.z t.x t.y t.delay tmpl err hsrc hnf hnet
  refine ⟨hdt, mkdirParents_files _ _, fun rest => ?_⟩
  rw [processTasks_cons_ok out net fs _ t rest _ _ _ hdt]
  have hmap : ∀ X : Except String Summary,
      Except.map (addOutcome false (errorMsg t.source t.z t.x t.y err)) X =
        Except.map (fun c => { c with failed := c.failed + 1 }) X := by
    intro X
    cases X
    · rfl
    · simp [Except.map, addOutcome_failed]
  rw [hmap]
  simp

/-- Witness for C4: a one-tile fetch of an absent `osm` tile over a network
that refuses every request. -/
theorem claim4_witness :
    hasFile ⟨[], []⟩ (tilePath "tiles" "osm" 1 2 3) = false ∧
    TILE_SOURCES "osm" = some (fun z x y =>
      "https://tile.openstreetmap.org/" ++ toString z ++ "/" ++ toString x ++
        "/" ++ toString y ++ ".png") ∧
    (download_tile "tiles" (fun _ => Except.error "timeout") ⟨[], []⟩ "osm" 1 2 3 0.5 =
      (mkdirParents ⟨[], []⟩ (tileDir "tiles" "osm" 1 2),
        [Effect.mkdirP (tileDir "tiles" "osm" 1 2), Effect.sleep 0.5,
          Effect.httpGet ("https://tile.openstreetmap.org/" ++ toString (1 : ℤ) ++ "/" ++
            toString (2 : ℤ) ++ "/" ++ toString (3 : ℤ) ++ ".png")],
        Except.ok (false, errorMsg "osm" 1 2 3 "timeout")) ∧
      (mkdirParents ⟨[], []⟩ (tileDir "tiles" "osm" 1 2)).files = [] ∧
      ∀ rest, processTasks "tiles" (fun _ => Except.error "timeout") ⟨[], []⟩
          (⟨"osm", 1, 2, 3, 0.5⟩ :: rest) =
        ((processTasks "tiles" (fun _ => Except.error "timeout")
            (mkdirParents ⟨[], []⟩ (tileDir "tiles" "osm" 1 2)) rest).1,
          Effect.mkdirP (tileDir "tiles" "osm" 1 2) :: Effect.sleep 0.5 ::
            Effect.httpGet ("https://tile.openstreetmap.org/" ++ toString (1 : ℤ) ++ "/" ++
              toString (2 : ℤ) ++ "/" ++ toString (3 : ℤ) ++ ".png") ::
            (processTasks "tiles" (fun _ => Except.error "timeout")
              (mkdirParents ⟨[], []⟩ (tileDir "tiles" "osm" 1 2)) rest).2.1,
          Except.map (fun c => { c with failed := c.failed + 1 })
            (processTasks "tiles" (fun _ => Except.error "timeout")
              (mkdirParents ⟨[], []⟩ (tileDir "tiles" "osm" 1 2)) rest).2.2)) :=
  ⟨rfl, rfl,
    claim4_fetch_failure "tiles" (fun _ => Except.error "timeout") ⟨[], []⟩
      ⟨"osm", 1, 2, 3, 0.5⟩ _ "timeout" rfl rfl rfl⟩

lemma processTasks_valid_sum (out : String) (net : String → Except String String)
    (tasks : List FetchTask) :
    ∀ fs : FS, (∀ t ∈ tasks, (TILE_SOURCES t.source).isSome) →
    ∃ fs2 effs c, processTasks out net fs tasks = (fs2, effs, Except.ok c) ∧
      c.downloaded + c.skipped + c.failed = tasks.length := by
  induction tasks with
  | nil => exact fun fs _ => ⟨fs, [], ⟨0, 0, 0⟩, rfl, rfl⟩
  | cons t rest ih =>
    intro fs hv
    obtain ⟨fs1, effs1, b, m, hdt⟩ :=
      download_tile_ok_of_valid out net fs t.source t.z t.x t.y t.delay
        (hv t (List.mem_cons_self _ _))
    obtain ⟨fs2, effs, c, heq, hsum⟩ := ih fs1 (fun t' ht' => hv t' (List.mem_cons_of_mem _ ht'))
    rw [processTasks_cons_ok out net fs _ t rest _ _ _ hdt]
    refine ⟨fs2, effs1 ++ effs, addOutcome b m c, ?_, ?_⟩
    · rw [heq]
      simp [Except.map]
    · rw [sum_addOutcome, hsum]
      simp

/-- C5: every completion adds exactly one to exactly one of the three
counters: after processing any prefix of the (valid-source) task list,
`downloaded + skipped + failed` equals the number of completions processed
so far, and at the end it equals the total number of enumerated tasks. -/
theorem claim5_outcome_sum (out : String) (net : String → Except String String)
    (fs : FS) (tasks : List FetchTask)
    (hval : ∀ t ∈ tasks, (TILE_SOURCES t.source).isSome) :
    (∀ k : ℕ, ∃ fs2 effs c,
      processTasks out net fs (tasks.take k) = (fs2, effs, Except.ok c) ∧
        c.downloaded + c.skipped + c.failed = (tasks.take k).length) ∧
    ∃ fs2 effs c, processTasks out net fs tasks = (fs2, effs, Except.ok c) ∧
      c.downloaded + c.skipped + c.failed = tasks.length := by
  constructor
  · intro k
    exact processTasks_valid_sum out net (tasks.take k) fs
      (fun t ht => hval t (List.take_subset k tasks ht))
  · exact processTasks_valid_sum out net tasks fs hval

/-- Witness for C5: a two-task batch over a network that succeeds. -/
theorem claim5_witness :
    (∀ t ∈ [(⟨"terrain", 4, 5, 6, 0.1⟩ : FetchTask), ⟨"satellite", 4, 5, 6, 0.1⟩],
      (TILE_SOURCES t.source).isSome) ∧
    ((∀ k : ℕ, ∃ fs2 effs c,
      processTasks "tiles" (fun _ => Except.ok "bytes") ⟨[], []⟩
          ([(⟨"terrain", 4, 5, 6, 0.1⟩ : FetchTask), ⟨"satellite", 4, 5, 6, 0.1⟩].take k) =
        (fs2, effs, Except.ok c) ∧
        c.downloaded + c.skipped + c.failed =
          ([(⟨"terrain", 4, 5, 6, 0.1⟩ : FetchTask), ⟨"satellite", 4, 5, 6, 0.1⟩].take k).length) ∧
    ∃ fs2 effs c,
      processTasks "tiles" (fun _ => Except.ok "bytes") ⟨[], []⟩
          [(⟨"terrain", 4, 5, 6, 0.1⟩ : FetchTask), ⟨"satellite", 4, 5, 6, 0.1⟩] =
        (fs2, effs, Except.ok c) ∧
        c.downloaded + c.skipped + c.failed = 2) :=
  ⟨by decide,
    claim5_outcome_sum "tiles" (fun _ => Except.ok "bytes") ⟨[], []⟩
      [⟨"terrain", 4, 5, 6, 0.1⟩, ⟨"satellite", 4, 5, 6, 0.1⟩] (by decide)⟩

/-- C8 (amended): an invalid source identifier is not rejected before
enumeration.  A worker that reaches the URL lookup (its tile is absent)
first creates the tile directory, then raises an uncaught `KeyError` from
the `TILE_SOURCES` lookup, before any sleep or network call — its own trace
is the mkdir only.  Reading that worker's result re-raises the `KeyError`,
so the batch yields no summary; the remaining already-submitted tasks still
run to completion (their filesystem mutations and effects all occur) before
the exception leaves `download_area`. -/
theorem claim8_invalid_source (out : String) (net : String → Except String String)
    (fs : FS) (s : String) (z x y : ℤ) (d : ℝ) (rest : List FetchTask)
    (hsrc : TILE_SOURCES s = none)
    (hnf : hasFile fs (tilePath out s z x y) = false) :
    download_tile out net fs s z x y d =
      (mkdirParents fs (tileDir out s z x), [Effect.mkdirP (tileDir out s z x)],
        Except.error "KeyError") ∧
    tileDir out s z x ∈ (mkdirParents fs (tileDir out s z x)).dirs ∧
    processTasks out net fs (⟨s, z, x, y, d⟩ :: rest) =
      ((processTasks out net (mkdirParents fs (tileDir out s z x)) rest).1,
        Effect.mkdirP (tileDir out s z x) ::
          (processTasks out net (mkdirParents fs (tileDir out s z x)) rest).2.1,
        Except.error "KeyError") := by
  have hdt := download_tile_keyError out net fs s z x y d hsrc hnf
  refine ⟨hdt, mem_dirs_mkdirParents _ _, ?_⟩
  rw [processTasks_cons_error out net fs _ ⟨s, z, x, y, d⟩ rest _ _ hdt]
  simp

/-- Witness for the amended C8 at the unknown source `bogus`. -/
theorem claim8_invalid_source_witness :
    TILE_SOURCES "bogus" = none ∧
    hasFile ⟨[], []⟩ (tilePath "tiles" "bogus" 0 0 0) = false ∧
    (download_tile "tiles" (fun _ => Except.error "net") ⟨[], []⟩ "bogus" 0 0 0 0 =
      (mkdirParents ⟨[], []⟩ (tileDir "tiles" "bogus" 0 0),
        [Effect.mkdirP (tileDir "tiles" "bogus" 0 0)], Except.error "KeyError") ∧
    tileDir "tiles" "bogus" 0 0 ∈ (mkdirParents ⟨[], []⟩ (tileDir "tiles" "bogus" 0 0)).dirs ∧
    processTasks "tiles" (fun _ => Except.error "net") ⟨[], []⟩ [⟨"bogus", 0, 0, 0, 0⟩] =
      ((processTasks "tiles" (fun _ => Except.error "net")
          (mkdirParents ⟨[], []⟩ (tileDir "tiles" "bogus" 0 0)) []).1,
        Effect.mkdirP (tileDir "tiles" "bogus" 0 0) ::
          (processTasks "tiles" (fun _ => Except.error "net")
            (mkdirParents ⟨[], []⟩ (tileDir "tiles" "bogus" 0 0)) []).2.1,
        Except.error "KeyError")) :=
  ⟨rfl, rfl,
    claim8_invalid_source "tiles" (fun _ => Except.error "net") ⟨[], []⟩ "bogus" 0 0 0 0 []
      rfl rfl⟩

end Tile

namespace Tile

/-! ### Concrete evaluation of the mapper at the origin, and enumeration -/

lemma lat_lon_to_tile_zero : lat_lon_to_tile 0 0 0 = (0, 0) := by
  have h1 : ((0 : ℝ) * π / 180) = 0 := by ring
  simp only [lat_lon_to_tile, h1, Real.tan_zero, Real.arsinh_zero, zpow_zero]
  unfold pyInt
  norm_num

lemma intRange_single : intRange 0 0 = [0] := by decide

lemma enumerate_tasks_bogus :
    enumerate_tasks 0 0 0 0 0 0 "bogus" 0 = [⟨"bogus", 0, 0, 0, 0⟩] := by
  simp [enumerate_tasks, intRange_single, lat_lon_to_tile_zero]

/-- C8 (counterexample): with the unknown source `bogus` and the one-tile
box at the origin, `download_area` does enumerate a `FetchTask` and the
worker does begin per-tile work — it creates the tile directory — before
the uncaught `KeyError` surfaces; the invalid source is not rejected before
enumeration as the claim states. -/
theorem claim8_counterexample :
    enumerate_tasks 0 0 0 0 0 0 "bogus" 0 ≠ [] ∧
    TILE_SOURCES "bogus" = none ∧
    tileDir "tiles" "bogus" 0 0 ∈
      (download_area "tiles" (fun _ => Except.error "net") "yes" ⟨[], []⟩
        0 0 0 0 0 0 "bogus" 0).1.dirs ∧
    (download_area "tiles" (fun _ => Except.error "net") "yes" ⟨[], []⟩
        0 0 0 0 0 0 "bogus" 0).2.2 = Except.error "KeyError" := by
  have hsrc : TILE_SOURCES "bogus" = none := rfl
  have hnf : hasFile (⟨[], []⟩ : FS) (tilePath "tiles" "bogus" 0 0 0) = false := rfl
  have hdt := download_tile_keyError "tiles" (fun _ => Except.error "net") ⟨[], []⟩
    "bogus" 0 0 0 0 hsrc hnf
  have hrun : download_area "tiles" (fun _ => Except.error "net") "yes" ⟨[], []⟩
      0 0 0 0 0 0 "bogus" 0 =
      (mkdirParents ⟨[], []⟩ (tileDir "tiles" "bogus" 0 0),
        [Effect.mkdirP (tileDir "tiles" "bogus" 0 0)], Except.error "KeyError") := by
    unfold download_area
    rw [enumerate_tasks_bogus]
    unfold download_area_run
    rw [if_neg (by simp)]
    rw [processTasks_cons_error "tiles" (fun _ => Except.error "net") ⟨[], []⟩ _ _ _ _ _ hdt]
    rfl
  refine ⟨by rw [enumerate_tasks_bogus]; simp, hsrc, ?_, ?_⟩
  · rw [hrun]
    exact mem_dirs_mkdirParents _ _
  · rw [hrun]

lemma mem_intRange {a b n : ℤ} : n ∈ intRange a b ↔ a ≤ n ∧ n ≤ b := by
  unfold intRange
  simp only [List.mem_map, List.mem_range]
  constructor
  · rintro ⟨i, hi, rfl⟩
    omega
  · rintro ⟨h1, h2⟩
    exact ⟨(n - a).toNat, by omega, by omega⟩

lemma intRange_nodup (a b : ℤ) : (intRange a b).Nodup := by
  unfold intRange
  refine List.Nodup.map ?_ (List.nodup_range _)
  intro i j h
  dsimp only at h
  omega

/-- C3: the tasks enumerated by `download_area` are exactly one
`FetchTask` per `(zoom, x, y)` with `zoom_min ≤ zoom ≤ zoom_max`,
`x_min ≤ x ≤ x_max` and `y_min ≤ y ≤ y_max`, where `(x_min, y_max)` is the
mapped southwest corner `(lat_min, lon_min)` and `(x_max, y_min)` the
mapped northeast corner `(lat_max, lon_max)` at that zoom, each carrying
the requested source and delay; the list has no duplicates. -/
theorem claim3_enumeration (lat_min lon_min lat_max lon_max : ℝ)
    (zoom_min zoom_max : ℤ) (src : String) (d : ℝ) :
    (∀ t : FetchTask,
      t ∈ enumerate_tasks lat_min lon_min lat_max lon_max zoom_min zoom_max src d ↔
        t.source = src ∧ t.delay = d ∧ zoom_min ≤ t.z ∧ t.z ≤ zoom_max ∧
        (lat_lon_to_tile lat_min lon_min t.z).1 ≤ t.x ∧
        t.x ≤ (lat_lon_to_tile lat_max lon_max t.z).1 ∧
        (lat_lon_to_tile lat_max lon_max t.z).2 ≤ t.y ∧
        t.y ≤ (lat_lon_to_tile lat_min lon_min t.z).2) ∧
    (enumerate_tasks lat_min lon_min lat_max lon_max zoom_min zoom_max src d).Nodup := by
  constructor
  · intro t
    simp only [enumerate_tasks, List.mem_flatMap, List.mem_map, mem_intRange]
    constructor
    · rintro ⟨z, hz, x, hx, y, hy, rfl⟩
      exact ⟨rfl, rfl, hz.1, hz.2, hx.1, hx.2, hy.1, hy.2⟩
    · rintro ⟨hs, hd, hz1, hz2, hx1, hx2, hy1, hy2⟩
      refine ⟨t.z, ⟨hz1, hz2⟩, t.x, ⟨hx1, hx2⟩, t.y, ⟨hy1, hy2⟩, ?_⟩
      cases t
      dsimp only at hs hd ⊢
      rw [hs, hd]
  · simp only [enumerate_tasks]
    refine List.nodup_flatMap.2 ⟨?_, ?_⟩
    · intro z hz
      refine List.nodup_flatMap.2 ⟨?_, ?_⟩
      · intro x hx
        refine List.Nodup.map ?_ (intRange_nodup _ _)
        intro y1 y2 h
        exact congrArg FetchTask.y h
      · refine List.Pairwise.imp ?_ (intRange_nodup _ _)
        intro x1 x2 hne t ht1 ht2
        simp only [List.mem_map] at ht1 ht2
        obtain ⟨y1, hy1, rfl⟩ := ht1
        obtain ⟨y2, hy2, heq⟩ := ht2
        exact hne (congrArg FetchTask.x heq).symm
    · refine List.Pairwise.imp ?_ (intRange_nodup _ _)
      intro z1 z2 hne t ht1 ht2
      simp only [List.mem_flatMap, List.mem_map] at ht1 ht2
      obtain ⟨x1, hx1, y1, hy1, rfl⟩ := ht1
      obtain ⟨x2, hx2, y2, hy2, heq⟩ := ht2
      exact hne (congrArg FetchTask.z heq).symm

end Tile

namespace Tile

/-! ### Real-analysis bounds for the Mercator mapper

The mapper claims need `tan 85° < sinh π < tan 86° < sinh 3π`: the
Mercator y-expression stays in `[0, 1)` for latitudes up to the Web
Mercator limit (≈ 85.05°), and goes negative above it. -/

lemma exp_three_gt : (20.0855 : ℝ) < Real.exp 3 := by
  have h0 : Real.exp 3 = Real.exp 1 ^ 3 := by
    rw [← Real.exp_nat_mul]
    norm_num
  have h1 : (2.7182818283 : ℝ) ^ 3 < Real.exp 1 ^ 3 :=
    pow_lt_pow_left₀ Real.exp_one_gt_d9 (by norm_num) (by norm_num)
  rw [h0]
  calc (20.0855 : ℝ) < 2.7182818283 ^ 3 := by norm_num
    _ < _ := h1

lemma exp_three_lt : Real.exp 3 < 20.0856 := by
  have h0 : Real.exp 3 = Real.exp 1 ^ 3 := by
    rw [← Real.exp_nat_mul]
    norm_num
  have h1 : Real.exp 1 ^ 3 < (2.7182818286 : ℝ) ^ 3 :=
    pow_lt_pow_left₀ Real.exp_one_lt_d9 (Real.exp_pos 1).le (by norm_num)
  rw [h0]
  calc Real.exp 1 ^ 3 < (2.7182818286 : ℝ) ^ 3 := h1
    _ < 20.0856 := by norm_num

lemma exp_pi_gt : (23.08 : ℝ) < Real.exp π := by
  have ha : (1.035398 : ℝ) ≤ Real.exp 0.035398 := by
    have := Real.add_one_le_exp (0.035398 : ℝ)
    linarith
  have hb : Real.exp (0.141592 : ℝ) = Real.exp 0.035398 ^ 4 := by
    rw [← Real.exp_nat_mul]
    norm_num
  have hc : (1.035398 : ℝ) ^ 4 ≤ Real.exp 0.035398 ^ 4 :=
    pow_le_pow_left₀ (by norm_num) ha 4
  have hd : (1.14928 : ℝ) ≤ Real.exp (0.141592 : ℝ) := by
    rw [hb]
    calc (1.14928 : ℝ) ≤ 1.035398 ^ 4 := by norm_num
      _ ≤ _ := hc
  have he : Real.exp (3.141592 : ℝ) = Real.exp 3 * Real.exp 0.141592 := by
    rw [← Real.exp_add]
    norm_num
  have hf : (23.08 : ℝ) < Real.exp (3.141592 : ℝ) := by
    rw [he]
    have h3 := exp_three_gt
    nlinarith [Real.exp_pos (0.141592 : ℝ)]
  calc (23.08 : ℝ) < Real.exp (3.141592 : ℝ) := hf
    _ < Real.exp π := Real.exp_lt_exp.mpr Real.pi_gt_d6

lemma exp_sev_lt : Real.exp ((1 : ℝ)/7) < 1.1537 := by
  by_contra hc
  push_neg at hc
  have h7 : Real.exp ((1 : ℝ)/7) ^ 7 = Real.exp 1 := by
    rw [← Real.exp_nat_mul]
    norm_num
  have hp : (1.1537 : ℝ) ^ 7 ≤ Real.exp ((1 : ℝ)/7) ^ 7 :=
    pow_le_pow_left₀ (by norm_num) hc 7
  rw [h7] at hp
  have h9 := Real.exp_one_lt_d9
  have hval : (2.7182818286 : ℝ) < 1.1537 ^ 7 := by norm_num
  linarith

lemma exp_pi_lt : Real.exp π < 23.18 := by
  have h1 : Real.exp π < Real.exp (3.141593 : ℝ) := Real.exp_lt_exp.mpr Real.pi_lt_d6
  have h2 : Real.exp (3.141593 : ℝ) = Real.exp 3 * Real.exp 0.141593 := by
    rw [← Real.exp_add]
    norm_num
  have h3 : Real.exp (0.141593 : ℝ) ≤ Real.exp ((1 : ℝ)/7) :=
    Real.exp_le_exp.mpr (by norm_num)
  have h4 : Real.exp 3 * Real.exp 0.141593 < 20.0856 * 1.1537 := by
    have ha3 := exp_three_lt
    have hb := exp_sev_lt
    nlinarith [Real.exp_pos (3 : ℝ), Real.exp_pos ((0.141593 : ℝ)), h3]
  calc Real.exp π < Real.exp (3.141593 : ℝ) := h1
    _ = Real.exp 3 * Real.exp 0.141593 := h2
    _ < 20.0856 * 1.1537 := h4
    _ < 23.18 := by norm_num

lemma sinh_pi_gt : (11.51 : ℝ) < Real.sinh π := by
  rw [Real.sinh_eq, Real.exp_neg]
  have h1 := exp_pi_gt
  have h2 : Real.exp π * (Real.exp π)⁻¹ = 1 := mul_inv_cancel₀ (ne_of_gt (Real.exp_pos π))
  have h3 : 0 < (Real.exp π)⁻¹ := inv_pos.mpr (Real.exp_pos π)
  nlinarith

lemma sinh_pi_lt : Real.sinh π < 11.59 := by
  rw [Real.sinh_eq, Real.exp_neg]
  have h1 := exp_pi_lt
  have h3 : 0 < (Real.exp π)⁻¹ := inv_pos.mpr (Real.exp_pos π)
  linarith

lemma sin_pidiv36_gt : (0.0871 : ℝ) < Real.sin (π/36) := by
  have h1 : (0.0872664 : ℝ) < π/36 := by
    have := Real.pi_gt_d6
    linarith
  have h2 : π/36 < 0.0872665 := by
    have := Real.pi_lt_d6
    linarith
  have h3 := Real.sin_gt_sub_cube (by linarith : (0:ℝ) < π/36) (by linarith : π/36 ≤ 1)
  have h4 : (π/36) ^ 3 < (0.0872665 : ℝ) ^ 3 :=
    pow_lt_pow_left₀ h2 (by linarith) (by norm_num)
  have h5 : (0.0871 : ℝ) < 0.0872664 - (0.0872665 : ℝ) ^ 3 / 4 := by norm_num
  linarith

lemma tan_85deg_lt : Real.tan (85 * π / 180) < 11.49 := by
  have heq : (85 : ℝ) * π / 180 = π/2 - π/36 := by ring
  rw [heq, Real.tan_eq_sin_div_cos, Real.sin_pi_div_two_sub, Real.cos_pi_div_two_sub]
  have hs := sin_pidiv36_gt
  have hspos : (0:ℝ) < Real.sin (π/36) := by linarith
  rw [div_lt_iff₀ hspos]
  have hc : Real.cos (π/36) ≤ 1 := Real.cos_le_one _
  nlinarith

lemma tan_85deg_lt_sinh_pi : Real.tan (85 * π / 180) < Real.sinh π := by
  have := tan_85deg_lt
  have := sinh_pi_gt
  linarith

lemma sin_pidiv45_lt : Real.sin (π/45) < 0.0698132 := by
  have h1 : (0:ℝ) < π/45 := by positivity
  have h2 := Real.sin_lt h1
  have := Real.pi_lt_d6
  linarith

lemma sin_pidiv45_gt : (0.0697 : ℝ) < Real.sin (π/45) := by
  have h1 : (0.0698131 : ℝ) < π/45 := by
    have := Real.pi_gt_d6
    linarith
  have h2 : π/45 < 0.0698132 := by
    have := Real.pi_lt_d6
    linarith
  have h3 := Real.sin_gt_sub_cube (by linarith : (0:ℝ) < π/45) (by linarith : π/45 ≤ 1)
  have h4 : (π/45) ^ 3 < (0.0698132 : ℝ) ^ 3 :=
    pow_lt_pow_left₀ h2 (by linarith) (by norm_num)
  have h5 : (0.0697 : ℝ) < 0.0698131 - (0.0698132 : ℝ) ^ 3 / 4 := by norm_num
  linarith

lemma cos_pidiv45_gt : (0.9975 : ℝ) < Real.cos (π/45) := by
  have hid : Real.cos (π/45) = 1 - 2 * Real.sin (π/90) ^ 2 := by
    have h2 := Real.cos_two_mul (π/90)
    have h3 := Real.sin_sq_add_cos_sq (π/90)
    have h45 : 2 * (π/90) = π/45 := by ring
    rw [h45] at h2
    linarith
  have hnn : 0 ≤ Real.sin (π/90) :=
    Real.sin_nonneg_of_nonneg_of_le_pi (by positivity) (by nlinarith [Real.pi_pos])
  have hlt : Real.sin (π/90) < π/90 := Real.sin_lt (by positivity)
  have hup : π/90 < 0.034907 := by
    have := Real.pi_lt_d6
    linarith
  have hsq : Real.sin (π/90) ^ 2 < (0.034907 : ℝ) ^ 2 :=
    pow_lt_pow_left₀ (by linarith) hnn (by norm_num)
  have hfin : (0.9975 : ℝ) < 1 - 2 * (0.034907 : ℝ) ^ 2 := by norm_num
  linarith

lemma sinh_pi_lt_tan_86deg : Real.sinh π < Real.tan (86 * π / 180) := by
  have heq : (86 : ℝ) * π / 180 = π/2 - π/45 := by ring
  rw [heq, Real.tan_eq_sin_div_cos, Real.sin_pi_div_two_sub, Real.cos_pi_div_two_sub]
  have hspos : (0:ℝ) < Real.sin (π/45) := by
    have := sin_pidiv45_gt
    linarith
  rw [lt_div_iff₀ hspos]
  have h1 := sinh_pi_lt
  have h2 := sin_pidiv45_lt
  have h3 := cos_pidiv45_gt
  have h4 : (0:ℝ) < Real.sinh π := by
    have := sinh_pi_gt
    linarith
  nlinarith

lemma tan_86deg_lt_sinh_3pi : Real.tan (86 * π / 180) < Real.sinh (3 * π) := by
  have heq : (86 : ℝ) * π / 180 = π/2 - π/45 := by ring
  have hspos : (0:ℝ) < Real.sin (π/45) := by
    have := sin_pidiv45_gt
    linarith
  have htan : Real.tan (86 * π / 180) < 15 := by
    rw [heq, Real.tan_eq_sin_div_cos, Real.sin_pi_div_two_sub, Real.cos_pi_div_two_sub]
    rw [div_lt_iff₀ hspos]
    have h1 := Real.cos_le_one (π/45)
    have h2 := sin_pidiv45_gt
    nlinarith
  have h9 : (8103 : ℝ) < Real.exp 9 := by
    have h0 : Real.exp 9 = Real.exp 1 ^ 9 := by
      rw [← Real.exp_nat_mul]
      norm_num
    rw [h0]
    calc (8103 : ℝ) < 2.7182818283 ^ 9 := by norm_num
      _ < Real.exp 1 ^ 9 := pow_lt_pow_left₀ Real.exp_one_gt_d9 (by norm_num) (by norm_num)
  have h3pi : Real.exp 9 < Real.exp (3 * π) := Real.exp_lt_exp.mpr (by nlinarith [Real.pi_gt_three])
  have hneg : Real.exp (-(3 * π)) ≤ 1 := by
    rw [show (1:ℝ) = Real.exp 0 from (Real.exp_zero).symm]
    exact Real.exp_le_exp.mpr (by nlinarith [Real.pi_pos])
  have hsinh : (4000 : ℝ) < Real.sinh (3 * π) := by
    rw [Real.sinh_eq]
    linarith
  linarith

lemma abs_mercator_lt {lat : ℝ} (h1 : -85 < lat) (h2 : lat < 85) :
    -π < Real.arsinh (Real.tan (lat * π / 180)) ∧
      Real.arsinh (Real.tan (lat * π / 180)) < π := by
  have hpi := Real.pi_pos
  have hmem : lat * π / 180 ∈ Set.Ioo (-(π/2)) (π/2) :=
    ⟨by nlinarith, by nlinarith⟩
  have hmem85 : (85:ℝ) * π / 180 ∈ Set.Ioo (-(π/2)) (π/2) :=
    ⟨by nlinarith, by nlinarith⟩
  have hneg85 : -((85:ℝ) * π / 180) ∈ Set.Ioo (-(π/2)) (π/2) :=
    ⟨by nlinarith, by nlinarith⟩
  have htub : Real.tan (lat * π / 180) < Real.tan (85 * π / 180) :=
    Real.strictMonoOn_tan hmem hmem85 (by nlinarith)
  have htlb : Real.tan (-(85 * π / 180)) < Real.tan (lat * π / 180) :=
    Real.strictMonoOn_tan hneg85 hmem (by nlinarith)
  rw [Real.tan_neg] at htlb
  have hkey := tan_85deg_lt_sinh_pi
  constructor
  · have hlow : Real.sinh (-π) < Real.tan (lat * π / 180) := by
      rw [Real.sinh_neg]
      linarith
    calc -π = Real.arsinh (Real.sinh (-π)) := (Real.arsinh_sinh _).symm
      _ < _ := Real.arsinh_lt_arsinh.mpr hlow
  · have hhigh : Real.tan (lat * π / 180) < Real.sinh π := by linarith
    calc Real.arsinh (Real.tan (lat * π / 180)) < Real.arsinh (Real.sinh π) :=
        Real.arsinh_lt_arsinh.mpr hhigh
      _ = π := Real.arsinh_sinh π

lemma mercator_lt_pi_of_le_85 {lat : ℝ} (h1 : -90 ≤ lat) (h2 : lat ≤ 85) :
    Real.arsinh (Real.tan (lat * π / 180)) < π := by
  have hpi := Real.pi_pos
  rcases eq_or_lt_of_le h1 with heq | hlt
  · rw [← heq]
    have hh : (-90:ℝ) * π / 180 = -(π/2) := by ring
    rw [hh, Real.tan_neg, Real.tan_pi_div_two, neg_zero, Real.arsinh_zero]
    exact hpi
  · have hmem : lat * π / 180 ∈ Set.Ioo (-(π/2)) (π/2) :=
      ⟨by nlinarith, by nlinarith⟩
    have hmem85 : (85:ℝ) * π / 180 ∈ Set.Ioo (-(π/2)) (π/2) :=
      ⟨by nlinarith, by nlinarith⟩
    have hle : Real.tan (lat * π / 180) ≤ Real.tan (85 * π / 180) := by
      rcases eq_or_lt_of_le h2 with heq2 | hlt2
      · rw [heq2]
      · exact le_of_lt (Real.strictMonoOn_tan hmem hmem85 (by nlinarith))
    calc Real.arsinh (Real.tan (lat * π / 180)) ≤ Real.arsinh (Real.tan (85 * π / 180)) :=
        Real.arsinh_le_arsinh.mpr hle
      _ < Real.arsinh (Real.sinh π) := Real.arsinh_lt_arsinh.mpr tan_85deg_lt_sinh_pi
      _ = π := Real.arsinh_sinh π

lemma pyInt_bounds {r n : ℝ} (h0 : 0 ≤ r) (h1 : r < n) :
    0 ≤ pyInt r ∧ (pyInt r : ℝ) < n := by
  unfold pyInt
  rw [if_pos h0]
  exact ⟨Int.floor_nonneg.mpr h0, lt_of_le_of_lt (Int.floor_le r) h1⟩

end Tile

namespace Tile

/-- C7 (amended): for latitudes in `(-85, 85)`, longitudes in `[-180, 180)`
(the claim's closed right end fails at `lon = 180`, see the
counterexample) and `zoom ≥ 0`, the mapper returns `x` and `y` both in
`[0, 2^zoom)`. -/
theorem claim7_in_range (lat lon : ℝ) (zoom : ℤ)
    (h1 : -85 < lat) (h2 : lat < 85) (h3 : -180 ≤ lon) (h4 : lon < 180) (h5 : 0 ≤ zoom) :
    0 ≤ (lat_lon_to_tile lat lon zoom).1 ∧
    ((lat_lon_to_tile lat lon zoom).1 : ℝ) < 2 ^ zoom ∧
    0 ≤ (lat_lon_to_tile lat lon zoom).2 ∧
    ((lat_lon_to_tile lat lon zoom).2 : ℝ) < 2 ^ zoom := by
  have hn : (0:ℝ) < (2:ℝ) ^ zoom := zpow_pos (by norm_num) zoom
  have hx0 : 0 ≤ (lon + 180) / 360 * (2:ℝ) ^ zoom := by
    apply mul_nonneg _ hn.le
    linarith
  have hx1 : (lon + 180) / 360 * (2:ℝ) ^ zoom < 2 ^ zoom := by
    have hfrac : (lon + 180) / 360 < 1 := by linarith
    nlinarith
  obtain ⟨ha1, ha2⟩ := abs_mercator_lt h1 h2
  have hpi := Real.pi_pos
  have hy0 : 0 ≤ (1 - Real.arsinh (Real.tan (lat * π / 180)) / π) / 2 * (2:ℝ) ^ zoom := by
    apply mul_nonneg _ hn.le
    have : Real.arsinh (Real.tan (lat * π / 180)) / π < 1 := (div_lt_one hpi).mpr ha2
    linarith
  have hy1 : (1 - Real.arsinh (Real.tan (lat * π / 180)) / π) / 2 * (2:ℝ) ^ zoom < 2 ^ zoom := by
    have hgt : -1 < Real.arsinh (Real.tan (lat * π / 180)) / π := by
      rw [lt_div_iff₀ hpi]
      linarith
    nlinarith
  simp only [lat_lon_to_tile]
  obtain ⟨hxa, hxb⟩ := pyInt_bounds hx0 hx1
  obtain ⟨hya, hyb⟩ := pyInt_bounds hy0 hy1
  exact ⟨hxa, hxb, hya, hyb⟩

/-- Witness for the amended C7 at `lat = 0`, `lon = 0`, `zoom = 0`. -/
theorem claim7_witness :
    ((-85:ℝ) < 0 ∧ (0:ℝ) < 85 ∧ (-180:ℝ) ≤ 0 ∧ (0:ℝ) < 180 ∧ (0:ℤ) ≤ 0) ∧
    (0 ≤ (lat_lon_to_tile 0 0 0).1 ∧ ((lat_lon_to_tile 0 0 0).1 : ℝ) < 2 ^ (0:ℤ) ∧
     0 ≤ (lat_lon_to_tile 0 0 0).2 ∧ ((lat_lon_to_tile 0 0 0).2 : ℝ) < 2 ^ (0:ℤ)) :=
  ⟨⟨by norm_num, by norm_num, by norm_num, by norm_num, le_refl _⟩,
   claim7_in_range 0 0 0 (by norm_num) (by norm_num) (by norm_num) (by norm_num) (le_refl _)⟩

/-- C7 (counterexample): at `lat = 0`, `lon = 180`, `zoom = 0` — inside the
claim's stated domain `lat ∈ (-85, 85)`, `lon ∈ [-180, 180]`, `zoom ≥ 0` —
the mapper returns `x = 1`, which is not in `[0, 2^0) = [0, 1)`. -/
theorem claim7_counterexample :
    ((-85:ℝ) < 0 ∧ (0:ℝ) < 85 ∧ (-180:ℝ) ≤ 180 ∧ (180:ℝ) ≤ 180 ∧ (0:ℤ) ≤ 0) ∧
    (lat_lon_to_tile 0 180 0).1 = 1 ∧
    ¬ ((lat_lon_to_tile 0 180 0).1 : ℝ) < 2 ^ (0:ℤ) := by
  have hx : (lat_lon_to_tile 0 180 0).1 = 1 := by
    simp only [lat_lon_to_tile, zpow_zero, mul_one]
    unfold pyInt
    rw [if_pos (by norm_num)]
    norm_num
  refine ⟨⟨by norm_num, by norm_num, by norm_num, le_refl _, le_refl _⟩, hx, ?_⟩
  rw [hx]
  norm_num

/-- C2 (amended): the mapper agrees with the spec's `floor` formulas
whenever both truncations act on nonnegative arguments: for
`lon ∈ [-180, 180]` the `x` argument is nonnegative, and for
`lat ∈ [-90, 85]` (below the Web Mercator sign change at ≈ 85.05°) the `y`
argument is nonnegative, so Python's toward-zero `int(...)` equals `floor`
and `lat_lon_to_tile = toTile_spec`; above that latitude the `y` argument
is negative and the two differ (see the counterexample). -/
theorem claim2_spec_agreement (lat lon : ℝ) (zoom : ℤ)
    (h1 : -180 ≤ lon) (h2 : lon ≤ 180) (h3 : -90 ≤ lat) (h4 : lat ≤ 85) (h5 : 0 ≤ zoom) :
    lat_lon_to_tile lat lon zoom = toTile_spec lat lon zoom := by
  have hn : (0:ℝ) < (2:ℝ) ^ zoom := zpow_pos (by norm_num) zoom
  have hx0 : 0 ≤ (lon + 180) / 360 * (2:ℝ) ^ zoom := by
    apply mul_nonneg _ hn.le
    linarith
  have ha := mercator_lt_pi_of_le_85 h3 h4
  have hpi := Real.pi_pos
  have hy0 : 0 ≤ (1 - Real.arsinh (Real.tan (lat * π / 180)) / π) / 2 * (2:ℝ) ^ zoom := by
    apply mul_nonneg _ hn.le
    have : Real.arsinh (Real.tan (lat * π / 180)) / π < 1 := (div_lt_one hpi).mpr ha
    linarith
  have hxeq : pyInt ((lon + 180) / 360 * (2:ℝ) ^ zoom) = ⌊(lon + 180) / 360 * (2:ℝ) ^ zoom⌋ := by
    unfold pyInt
    rw [if_pos hx0]
  have hyeq : pyInt ((1 - Real.arsinh (Real.tan (lat * π / 180)) / π) / 2 * (2:ℝ) ^ zoom) =
      ⌊(1 - Real.arsinh (Real.tan (lat * π / 180)) / π) / 2 * (2:ℝ) ^ zoom⌋ := by
    unfold pyInt
    rw [if_pos hy0]
  simp only [lat_lon_to_tile, toTile_spec]
  rw [hxeq, hyeq]

/-- Witness for the amended C2 at `lat = 0`, `lon = 0`, `zoom = 0`. -/
theorem claim2_witness :
    ((-180:ℝ) ≤ 0 ∧ (0:ℝ) ≤ 180 ∧ (-90:ℝ) ≤ 0 ∧ (0:ℝ) ≤ 85 ∧ (0:ℤ) ≤ 0) ∧
    lat_lon_to_tile 0 0 0 = toTile_spec 0 0 0 :=
  ⟨⟨by norm_num, by norm_num, by norm_num, by norm_num, le_refl _⟩,
   claim2_spec_agreement 0 0 0 (by norm_num) (by norm_num) (by norm_num) (by norm_num)
     (le_refl _)⟩

/-- C2 (counterexample): at `lat = 86`, `lon = 0`, `zoom = 0` — inside the
claim's stated domain — the Mercator `y` expression lies in `(-1, 0)`, so
the code's toward-zero `int(...)` gives `y = 0` while the claimed `floor`
gives `y = -1`: the mapper does not return the claimed floor. -/
theorem claim2_counterexample :
    ((-90:ℝ) ≤ 86 ∧ (86:ℝ) ≤ 90 ∧ (-180:ℝ) ≤ 0 ∧ (0:ℝ) ≤ 180 ∧ (0:ℤ) ≤ 0) ∧
    (lat_lon_to_tile 86 0 0).2 = 0 ∧ (toTile_spec 86 0 0).2 = -1 ∧
    lat_lon_to_tile 86 0 0 ≠ toTile_spec 86 0 0 := by
  have hpi := Real.pi_pos
  have ha_lb : π < Real.arsinh (Real.tan ((86:ℝ) * π / 180)) := by
    calc π = Real.arsinh (Real.sinh π) := (Real.arsinh_sinh π).symm
      _ < _ := Real.arsinh_lt_arsinh.mpr sinh_pi_lt_tan_86deg
  have ha_ub : Real.arsinh (Real.tan ((86:ℝ) * π / 180)) < 3 * π := by
    calc Real.arsinh (Real.tan ((86:ℝ) * π / 180)) < Real.arsinh (Real.sinh (3 * π)) :=
        Real.arsinh_lt_arsinh.mpr tan_86deg_lt_sinh_3pi
      _ = 3 * π := Real.arsinh_sinh _
  have hv1 : (1 - Real.arsinh (Real.tan ((86:ℝ) * π / 180)) / π) / 2 < 0 := by
    have : 1 < Real.arsinh (Real.tan ((86:ℝ) * π / 180)) / π := (one_lt_div hpi).mpr ha_lb
    linarith
  have hv2 : (-1:ℝ) < (1 - Real.arsinh (Real.tan ((86:ℝ) * π / 180)) / π) / 2 := by
    have : Real.arsinh (Real.tan ((86:ℝ) * π / 180)) / π < 3 :=
      (div_lt_iff₀ hpi).mpr (by linarith)
    linarith
  have hcode : (lat_lon_to_tile 86 0 0).2 = 0 := by
    simp only [lat_lon_to_tile, zpow_zero, mul_one]
    unfold pyInt
    rw [if_neg (by linarith)]
    exact Int.ceil_eq_iff.mpr ⟨by push_cast; linarith, by push_cast; linarith⟩
  have hspec : (toTile_spec 86 0 0).2 = -1 := by
    simp only [toTile_spec, zpow_zero, mul_one]
    exact Int.floor_eq_iff.mpr ⟨by push_cast; linarith, by push_cast; linarith⟩
  refine ⟨⟨by norm_num, by norm_num, by norm_num, by norm_num, le_refl _⟩, hcode, hspec, ?_⟩
  intro heq
  have hsnd := congrArg Prod.snd heq
  rw [hcode, hspec] at hsnd
  exact absurd hsnd (by norm_num)

end Tile
